import Mathlib

/-!
# Wing segment node: periodic broadcasts, acceptance callback, housekeeping

A shallow embedding of the application code of the wing segment node:

* `queue_node_status`, `queue_camera_gimbal_status` (Wing_Segment/wing_segment.c),
* `init_uavcan`, `uavcan_stats`, `cleanup_uavcan`, `shouldAcceptTransfer`
  (libraries/uavcan/uavcan.c).

C function-local `static` variables become explicit state that is passed in and
returned.  Calls into Libcanard and the CAN driver are recorded in a list of
calls, and what those calls return is supplied by an environment record.
Unsigned machine arithmetic is done on `Nat` with explicit reduction modulo
`2 ^ w`.
-/

namespace WingSegment

/-! ## Machine integers -/

/-- Number of values of a `uint64_t`. -/
def U64 : Nat := 2 ^ 64

/-- Number of values of a `uint16_t`. -/
def U16 : Nat := 2 ^ 16

/-- C subtraction `a - b` on `uint64_t` operands: the difference modulo `2 ^ 64`. -/
def sub_u64 (a b : Nat) : Nat := (a % U64 + (U64 - b % U64)) % U64

/-- Conversion of a signed result to `uint16_t` (value modulo `2 ^ 16`). -/
def toUint16 (r : Int) : Nat := (r % 65536).toNat

/-- Conversion of a signed result to `int16_t` (two's complement wrap). -/
def toInt16 (r : Int) : Int := (r + 32768) % 65536 - 32768

/-! ## Periodic broadcasts (wing_segment.c) -/

/-- Arguments of one call `push_message(&g_canard, signature, id, &transfer_id, priority,
&buffer, size)`. -/
structure PushCall where
  data_type_signature : Nat
  data_type_id : Nat
  transfer_id : Nat
  priority : Nat
  buffer : List Nat
  size : Nat
  deriving DecidableEq, Repr

/-- The global `node` fields read when a Node Status message is built. -/
structure Node where
  uptime : Nat
  health : Nat
  mode : Nat
  deriving DecidableEq, Repr

/-- Constants and collaborators that wing_segment.c uses but does not define: the
preprocessor constants of the headers, the message encoders, and `push_message`,
which reports a result (positive on success) and the transfer id it leaves behind. -/
structure Env where
  MAX_BROADCASTING_PERIOD_MS : Nat
  NODE_STATUS_DATA_TYPE_SIGNATURE : Nat
  NODE_STATUS_DATA_TYPE_ID : Nat
  NODE_STATUS_MESSAGE_SIZE : Nat
  CAMERA_GIMBAL_STATUS_DATA_TYPE_SIGNATURE : Nat
  CAMERA_GIMBAL_STATUS_DATA_TYPE_ID : Nat
  CAMERA_GIMBAL_STATUS_MESSAGE_SIZE : Nat
  CANARD_TRANSFER_PRIORITY_LOW : Nat
  CANARD_TRANSFER_PRIORITY_MEDIUM : Nat
  /-- Encoder `node_status(buffer, 0, uptime, health, mode)`: the bytes left in `buffer`. -/
  node_status : Nat → Nat → Nat → List Nat
  /-- Encoder `camera_gimbal_status(buffer, 0, gimbal_id, CAMERA_MODE_GEO_POI, x, y, z, 0)`
  for the orientation currently read from the sensor: the bytes left in `buffer`. -/
  camera_gimbal_status : Nat → List Nat
  push_message : PushCall → Int × Nat

/-- The function-local statics of `queue_node_status`.  `msec = none` means the
initialiser `static uint64_t msec = timestamp_msec;` has not run yet (no call so far). -/
structure NodeStatusStatics where
  msec : Option Nat
  re_val : Nat
  transfer_id : Nat
  deriving DecidableEq, Repr

/-- The function-local statics of `queue_camera_gimbal_status`. -/
structure GimbalStatics where
  msec : Option Nat
  re_val : Int
  transfer_id : Nat
  gimbal_id : Nat
  deriving DecidableEq, Repr

/-- What one call leaves behind: the statics, the returned value, and the calls of
`push_message` it made, in order. -/
structure Outcome (σ ρ : Type) where
  state : σ
  ret : ρ
  calls : List PushCall

/-- Statics of `queue_node_status` before the first call. -/
def NodeStatusStatics.init : NodeStatusStatics :=
  { msec := none, re_val := 0, transfer_id := 0 }

/-- Statics of `queue_camera_gimbal_status` before the first call. -/
def GimbalStatics.init : GimbalStatics :=
  { msec := none, re_val := 0, transfer_id := 0, gimbal_id := 8 }

/-- Embedding of `uint16_t queue_node_status(uint64_t timestamp_msec)`. -/
def queue_node_status (env : Env) (node : Node) (s : NodeStatusStatics)
    (timestamp_msec : Nat) : Outcome NodeStatusStatics Nat :=
  -- static uint64_t msec = timestamp_msec;   (runs on the first call only)
  let msec := s.msec.getD timestamp_msec
  -- re_val = 0;
  if sub_u64 timestamp_msec msec > env.MAX_BROADCASTING_PERIOD_MS / 2 then
    let call : PushCall :=
      { data_type_signature := env.NODE_STATUS_DATA_TYPE_SIGNATURE
        data_type_id := env.NODE_STATUS_DATA_TYPE_ID
        transfer_id := s.transfer_id
        priority := env.CANARD_TRANSFER_PRIORITY_LOW
        buffer := env.node_status node.uptime node.health node.mode
        size := env.NODE_STATUS_MESSAGE_SIZE }
    -- re_val = push_message(...);
    let res := env.push_message call
    -- msec = timestamp_msec;
    { state := { msec := some timestamp_msec, re_val := toUint16 res.1, transfer_id := res.2 }
      ret := toUint16 res.1
      calls := [call] }
  else
    { state := { msec := some msec, re_val := 0, transfer_id := s.transfer_id }
      ret := 0
      calls := [] }

/-- Embedding of `int16_t queue_camera_gimbal_status(uint64_t timestamp_msec)`. -/
def queue_camera_gimbal_status (env : Env) (s : GimbalStatics)
    (timestamp_msec : Nat) : Outcome GimbalStatics Int :=
  -- static uint64_t msec = timestamp_msec;   (runs on the first call only)
  let msec := s.msec.getD timestamp_msec
  -- re_val = 0;
  if sub_u64 timestamp_msec msec > env.MAX_BROADCASTING_PERIOD_MS / 4 then
    let call : PushCall :=
      { data_type_signature := env.CAMERA_GIMBAL_STATUS_DATA_TYPE_SIGNATURE
        data_type_id := env.CAMERA_GIMBAL_STATUS_DATA_TYPE_ID
        transfer_id := s.transfer_id
        priority := env.CANARD_TRANSFER_PRIORITY_MEDIUM
        buffer := env.camera_gimbal_status s.gimbal_id
        size := env.CAMERA_GIMBAL_STATUS_MESSAGE_SIZE }
    -- re_val = push_message(...);
    let res := env.push_message call
    -- msec = timestamp_msec;
    { state := { msec := some timestamp_msec, re_val := toInt16 res.1, transfer_id := res.2,
                 gimbal_id := s.gimbal_id }
      ret := toInt16 res.1
      calls := [call] }
  else
    { state := { msec := some msec, re_val := 0, transfer_id := s.transfer_id,
                 gimbal_id := s.gimbal_id }
      ret := 0
      calls := [] }

/-- The last-fired time a call works with: the stored `msec`, or the timestamp of
this very call when the static has not been set up yet. -/
def lastFired (stored : Option Nat) (timestamp_msec : Nat) : Nat :=
  stored.getD timestamp_msec

/-- A concrete environment in which every send fails: `push_message` reports `-1`
and leaves the transfer id alone.  The broadcasting period is 1000 ms. -/
def failingEnv : Env :=
  { MAX_BROADCASTING_PERIOD_MS := 1000
    NODE_STATUS_DATA_TYPE_SIGNATURE := 0x0f0868d0c1a7c6f1
    NODE_STATUS_DATA_TYPE_ID := 341
    NODE_STATUS_MESSAGE_SIZE := 7
    CAMERA_GIMBAL_STATUS_DATA_TYPE_SIGNATURE := 0xb9f127865be0d61e
    CAMERA_GIMBAL_STATUS_DATA_TYPE_ID := 1044
    CAMERA_GIMBAL_STATUS_MESSAGE_SIZE := 10
    CANARD_TRANSFER_PRIORITY_LOW := 24
    CANARD_TRANSFER_PRIORITY_MEDIUM := 16
    node_status := fun uptime health mode => [uptime % 256, health, mode]
    camera_gimbal_status := fun gimbal_id => [gimbal_id]
    push_message := fun call => (-1, call.transfer_id) }

/-- The same environment with a `push_message` that succeeds: it reports `1` and
advances the transfer id. -/
def workingEnv : Env :=
  { failingEnv with push_message := fun call => (1, call.transfer_id + 1) }

/-- A node that has been up for five seconds. -/
def sampleNode : Node := { uptime := 5000, health := 0, mode := 0 }

/-! ## Acceptance callback (uavcan.c) -/

/-- Libcanard's `CanardTransferType`. -/
inductive CanardTransferType where
  | CanardTransferTypeResponse
  | CanardTransferTypeRequest
  | CanardTransferTypeBroadcast
  deriving DecidableEq, Repr

/-- The compile-time configuration `shouldAcceptTransfer` is built under: which of the
switches tested by `#if defined(...)` are defined, and the data type constants of
the two request rules. -/
structure AcceptConfig where
  ACCEPTING_RESPONSES : Bool
  ACCEPTING_REQUESTS : Bool
  ACCEPT_REQUEST_NODE_INFO : Bool
  ACCEPT_REQUEST_DATA_TYPE_INFO : Bool
  ACCEPTING_BROADCASTS : Bool
  NODE_INFO_DATA_TYPE_ID : Nat
  NODE_INFO_DATA_TYPE_SIGNATURE : Nat
  DATA_TYPE_INFO_DATA_TYPE_ID : Nat
  DATA_TYPE_INFO_DATA_TYPE_SIGNATURE : Nat
  deriving DecidableEq, Repr

/-- The part of a `CanardInstance` the application sets: the local node id. -/
structure CanardInstance where
  node_id : Nat
  deriving DecidableEq, Repr

/-- Memory written by `shouldAcceptTransfer`: the cell `*out_data_type_signature` and
the function-local `static bool accept_transfer`. -/
structure AcceptCells where
  out_data_type_signature : Nat
  accept_transfer : Bool
  deriving DecidableEq, Repr

/-- Embedding of `bool shouldAcceptTransfer(ins, out_data_type_signature, data_type_id,
transfer_type, source_node_id)`.  `before` holds the two cells as the call finds them;
the result is the returned boolean and the cells as the call leaves them. -/
def shouldAcceptTransfer (cfg : AcceptConfig) (_ins : CanardInstance) (before : AcceptCells)
    (data_type_id : Nat) (transfer_type : CanardTransferType) (_source_node_id : Nat) :
    Bool × AcceptCells :=
  -- accept_transfer = false
  let m0 : AcceptCells := { before with accept_transfer := false }
  let m : AcceptCells :=
    match transfer_type with
    | .CanardTransferTypeResponse =>
      -- #if defined(ACCEPTING_RESPONSES) { } #endif
      if cfg.ACCEPTING_RESPONSES then m0 else m0
    | .CanardTransferTypeRequest =>
      if cfg.ACCEPTING_REQUESTS then
        let m1 : AcceptCells :=
          if cfg.ACCEPT_REQUEST_NODE_INFO then
            if data_type_id = cfg.NODE_INFO_DATA_TYPE_ID then
              { out_data_type_signature := cfg.NODE_INFO_DATA_TYPE_SIGNATURE
                accept_transfer := true }
            else m0
          else m0
        let m2 : AcceptCells :=
          if cfg.ACCEPT_REQUEST_DATA_TYPE_INFO then
            if data_type_id = cfg.DATA_TYPE_INFO_DATA_TYPE_ID then
              { out_data_type_signature := cfg.DATA_TYPE_INFO_DATA_TYPE_SIGNATURE
                accept_transfer := true }
            else m1
          else m1
        m2
      else m0
    | .CanardTransferTypeBroadcast =>
      -- #if defined(ACCEPTING_BROADCASTS) { } #endif
      if cfg.ACCEPTING_BROADCASTS then m0 else m0
  -- return accept_transfer;
  (m.accept_transfer, m)

/-- A configuration in which both request rules are enabled and carry the same data
type id with different signatures. -/
def sharedIdConfig : AcceptConfig :=
  { ACCEPTING_RESPONSES := false
    ACCEPTING_REQUESTS := true
    ACCEPT_REQUEST_NODE_INFO := true
    ACCEPT_REQUEST_DATA_TYPE_INFO := true
    ACCEPTING_BROADCASTS := false
    NODE_INFO_DATA_TYPE_ID := 1
    NODE_INFO_DATA_TYPE_SIGNATURE := 0xee468a8121c46a9e
    DATA_TYPE_INFO_DATA_TYPE_ID := 1
    DATA_TYPE_INFO_DATA_TYPE_SIGNATURE := 0x1b283338a7bed2d8 }

/-- The protocol's own numbering: Node Info is service 1, Data Type Info is service 2,
both request rules enabled. -/
def standardConfig : AcceptConfig :=
  { sharedIdConfig with DATA_TYPE_INFO_DATA_TYPE_ID := 2 }

/-- A configuration that takes broadcasts only: the request and response switches
are not defined. -/
def broadcastOnlyConfig : AcceptConfig :=
  { standardConfig with ACCEPTING_REQUESTS := false, ACCEPTING_BROADCASTS := true }

/-! ## Start-up, statistics and housekeeping (uavcan.c) -/

/-- Calls into Libcanard and the AVR CAN driver made by uavcan.c. -/
inductive LibCall where
  | canardInit
  | canardAVRInit (bitrate : Nat)
  | canardSetLocalNodeID (node_id : Nat)
  | canardAVRConfgifureAcceptanceFilters (node_id : Nat)
  | canardCleanupStaleTransfers (timestamp_usec : Nat)
  deriving DecidableEq, Repr

/-- The CAN driver as `init_uavcan` sees it: the configured bit rate and what the two
driver calls return. -/
structure Driver where
  CAN_BITRATE : Nat
  canardAVRInit : Nat → Int
  canardAVRConfgifureAcceptanceFilters : Nat → Int

/-- Embedding of `bool init_uavcan()`; `local_id` is `node.local_id`.  The result is the
returned boolean and the library calls made, in order. -/
def init_uavcan (drv : Driver) (local_id : Nat) : Bool × List LibCall :=
  let t0 := [LibCall.canardInit]
  let t1 := t0 ++ [LibCall.canardAVRInit drv.CAN_BITRATE]
  if drv.canardAVRInit drv.CAN_BITRATE ≠ 0 then
    (false, t1)
  else
    let t2 := t1 ++ [LibCall.canardSetLocalNodeID local_id]
    let t3 := t2 ++ [LibCall.canardAVRConfgifureAcceptanceFilters local_id]
    if drv.canardAVRConfgifureAcceptanceFilters local_id ≠ 1 then
      (false, t3)
    else
      (true, t3)

/-- A driver whose initialisation fails with `-1`. -/
def deadDriver : Driver :=
  { CAN_BITRATE := 500000
    canardAVRInit := fun _ => -1
    canardAVRConfgifureAcceptanceFilters := fun _ => 1 }

/-- Libcanard's `CanardPoolAllocatorStatistics`. -/
structure CanardPoolAllocatorStatistics where
  capacity_blocks : Nat
  current_usage_blocks : Nat
  peak_usage_blocks : Nat
  deriving DecidableEq, Repr

/-- Embedding of `uint16_t uavcan_stats()`, applied to the statistics that
`canardGetPoolAllocatorStatistics(&g_canard)` hands back.  `uintBits` is the width of
the target's `unsigned int`, in which `100U * peak_usage_blocks / capacity_blocks`
is evaluated (16 on AVR).  Division by zero has no defined result: `none`. -/
def uavcan_stats (uintBits : Nat) (stats : CanardPoolAllocatorStatistics) : Option Nat :=
  if stats.capacity_blocks = 0 then
    none
  else
    let product := (100 * stats.peak_usage_blocks) % 2 ^ uintBits
    let peak_percent := (product / stats.capacity_blocks) % U16
    some peak_percent

/-- Width of `unsigned int` on the AVR target. -/
def AVR_UINT_BITS : Nat := 16

/-- Value of the function-local `static uint64_t cleanup_usec = cleanup_usec;` before the
first call: statics are zero-filled before their initialiser runs, and the initialiser
copies the variable onto itself. -/
def cleanup_usec_init : Nat := 0

/-- Embedding of `bool cleanup_uavcan(uint64_t timestamp_usec)`.  The result is the
returned boolean, the static `cleanup_usec` after the call, and the library calls
made. -/
def cleanup_uavcan (cleanup_usec : Nat) (timestamp_usec : Nat) : Bool × Nat × List LibCall :=
  if sub_u64 timestamp_usec cleanup_usec > 1000000 then
    (true, timestamp_usec, [LibCall.canardCleanupStaleTransfers timestamp_usec])
  else
    (true, cleanup_usec, [])

/-! ## The periodic broadcasts fire on their thresholds -/

theorem sub_u64_self (a : Nat) : sub_u64 a a = 0 := by
  unfold sub_u64
  have h : a % U64 < U64 := Nat.mod_lt _ (by unfold U64; positivity)
  have e : a % U64 + (U64 - a % U64) = U64 := by omega
  rw [e, Nat.mod_self]

/-- In range and without borrow, `sub_u64` is plain subtraction. -/
theorem sub_u64_of_le (a b : Nat) (hb : b ≤ a) (ha : a < U64) : sub_u64 a b = a - b := by
  unfold sub_u64
  have hb2 : b < U64 := by omega
  rw [Nat.mod_eq_of_lt ha, Nat.mod_eq_of_lt hb2]
  have e : a + (U64 - b) = (a - b) + U64 := by omega
  rw [e, Nat.add_mod_right, Nat.mod_eq_of_lt (by omega)]

/-- With a borrow, `sub_u64` wraps around `2 ^ 64`. -/
theorem sub_u64_of_lt (a b : Nat) (hab : a < b) (hb : b < U64) :
    sub_u64 a b = a + U64 - b := by
  unfold sub_u64
  have ha : a < U64 := by omega
  rw [Nat.mod_eq_of_lt ha, Nat.mod_eq_of_lt hb]
  have e : a + (U64 - b) = a + U64 - b := by omega
  rw [e, Nat.mod_eq_of_lt (by omega)]

/-- C1: `queue_node_status` calls `push_message` exactly when
`timestamp_msec - T > MAX_BROADCASTING_PERIOD_MS / 2` (subtraction modulo `2 ^ 64`), where
`T` is the stored last-fired time, or the timestamp of this call when it is the first
one; when the condition is false the call returns 0, calls nothing and leaves `T` as it
was; the first call never fires. -/
theorem queue_node_status_fires_iff (env : Env) (node : Node) (s : NodeStatusStatics)
    (now : Nat) :
    ((queue_node_status env node s now).calls ≠ [] ↔
        sub_u64 now (lastFired s.msec now) > env.MAX_BROADCASTING_PERIOD_MS / 2) ∧
    ((queue_node_status env node s now).calls.length ≤ 1) ∧
    (¬ sub_u64 now (lastFired s.msec now) > env.MAX_BROADCASTING_PERIOD_MS / 2 →
        (queue_node_status env node s now).ret = 0 ∧
        (queue_node_status env node s now).calls = [] ∧
        (queue_node_status env node s now).state.msec = some (lastFired s.msec now)) ∧
    (s.msec = none →
        (queue_node_status env node s now).calls = [] ∧
        (queue_node_status env node s now).state.msec = some now) := by
  refine ⟨?_, ?_, ?_, ?_⟩
  · unfold queue_node_status lastFired
    by_cases h : sub_u64 now (s.msec.getD now) > env.MAX_BROADCASTING_PERIOD_MS / 2
    · simp [h]
    · simp [h]
  · unfold queue_node_status
    by_cases h : sub_u64 now (s.msec.getD now) > env.MAX_BROADCASTING_PERIOD_MS / 2
    · simp [h]
    · simp [h]
  · intro h
    unfold lastFired at h
    unfold queue_node_status lastFired
    simp [h]
  · intro h
    unfold queue_node_status
    simp [h, sub_u64_self]

/-- Instance of C1 on concrete ticks: stored time 0 and period 1000; the tick at 500
does not fire and the tick at 501 does. -/
theorem queue_node_status_fires_iff_witness :
    (queue_node_status workingEnv sampleNode ⟨some 0, 0, 0⟩ 500).calls = [] ∧
    (queue_node_status workingEnv sampleNode ⟨some 0, 0, 0⟩ 500).state.msec = some 0 ∧
    (queue_node_status workingEnv sampleNode ⟨some 0, 0, 0⟩ 501).calls ≠ [] := by
  have h500 := queue_node_status_fires_iff workingEnv sampleNode ⟨some 0, 0, 0⟩ 500
  have h501 := queue_node_status_fires_iff workingEnv sampleNode ⟨some 0, 0, 0⟩ 501
  have c500 : ¬ sub_u64 500 (lastFired (some 0) 500) >
      workingEnv.MAX_BROADCASTING_PERIOD_MS / 2 := by decide
  have c501 : sub_u64 501 (lastFired (some 0) 501) >
      workingEnv.MAX_BROADCASTING_PERIOD_MS / 2 := by decide
  exact ⟨(h500.2.2.1 c500).2.1, (h500.2.2.1 c500).2.2, h501.1.mpr c501⟩

/-! ## What a firing does to the last-fired time -/

/-- C2, refuted as stated: with stored time 0, period 1000 and a `push_message` that
reports failure (`-1`), the tick at 1000 fires in both tasks, the send fails, and the
stored last-fired time is 1000 afterwards, not 0. -/
theorem failed_send_advances_last_fired :
    (queue_node_status failingEnv sampleNode ⟨some 0, 0, 0⟩ 1000).calls ≠ [] ∧
    (∀ c ∈ (queue_node_status failingEnv sampleNode ⟨some 0, 0, 0⟩ 1000).calls,
        (failingEnv.push_message c).1 ≤ 0) ∧
    (queue_node_status failingEnv sampleNode ⟨some 0, 0, 0⟩ 1000).state.msec = some 1000 ∧
    (queue_node_status failingEnv sampleNode ⟨some 0, 0, 0⟩ 1000).state.msec ≠ some 0 ∧
    (queue_camera_gimbal_status failingEnv ⟨some 0, 0, 0, 8⟩ 1000).calls ≠ [] ∧
    (∀ c ∈ (queue_camera_gimbal_status failingEnv ⟨some 0, 0, 0, 8⟩ 1000).calls,
        (failingEnv.push_message c).1 ≤ 0) ∧
    (queue_camera_gimbal_status failingEnv ⟨some 0, 0, 0, 8⟩ 1000).state.msec = some 1000 ∧
    (queue_camera_gimbal_status failingEnv ⟨some 0, 0, 0, 8⟩ 1000).state.msec ≠ some 0 := by
  refine ⟨by decide, ?_, by decide, by decide, by decide, ?_, by decide, by decide⟩
  · intro c _
    show (-1 : Int) ≤ 0
    decide
  · intro c _
    show (-1 : Int) ≤ 0
    decide

/-- C2, amended: on every tick on which `queue_node_status` or
`queue_camera_gimbal_status` fires, the stored last-fired time after the call is the
timestamp of that tick, whatever `push_message` reports; and the value returned is the
result of `push_message` converted to the return type. -/
theorem firing_sets_last_fired (env : Env) (node : Node) (s : NodeStatusStatics)
    (g : GimbalStatics) (now : Nat) :
    (sub_u64 now (lastFired s.msec now) > env.MAX_BROADCASTING_PERIOD_MS / 2 →
        (queue_node_status env node s now).state.msec = some now ∧
        ∃ c, (queue_node_status env node s now).calls = [c] ∧
          (queue_node_status env node s now).ret = toUint16 (env.push_message c).1) ∧
    (sub_u64 now (lastFired g.msec now) > env.MAX_BROADCASTING_PERIOD_MS / 4 →
        (queue_camera_gimbal_status env g now).state.msec = some now ∧
        ∃ c, (queue_camera_gimbal_status env g now).calls = [c] ∧
          (queue_camera_gimbal_status env g now).ret = toInt16 (env.push_message c).1) := by
  constructor
  · intro h
    unfold lastFired at h
    unfold queue_node_status
    simp [h]
  · intro h
    unfold lastFired at h
    unfold queue_camera_gimbal_status
    simp [h]

/-- Instance of the amended C2 where the send fails: the last-fired time still becomes
the tick's timestamp. -/
theorem firing_sets_last_fired_witness :
    (queue_node_status failingEnv sampleNode ⟨some 0, 0, 0⟩ 1000).state.msec = some 1000 ∧
    (queue_camera_gimbal_status failingEnv ⟨some 0, 0, 0, 8⟩ 1000).state.msec = some 1000 :=
  ⟨((firing_sets_last_fired failingEnv sampleNode ⟨some 0, 0, 0⟩ ⟨some 0, 0, 0, 8⟩ 1000).1
      (by decide)).1,
   ((firing_sets_last_fired failingEnv sampleNode ⟨some 0, 0, 0⟩ ⟨some 0, 0, 0, 8⟩ 1000).2
      (by decide)).1⟩

/-! ## The threshold of the camera gimbal task -/

/-- C3, refuted as stated: with period 1000 and stored time 0, the tick at 300 makes
`queue_camera_gimbal_status` call `push_message` although `300 - 0` does not exceed
`1000 / 2`; `queue_node_status` does not fire on that tick. -/
theorem gimbal_fires_below_half_period :
    (queue_camera_gimbal_status workingEnv ⟨some 0, 0, 0, 8⟩ 300).calls ≠ [] ∧
    ¬ sub_u64 300 (lastFired (some 0) 300) > workingEnv.MAX_BROADCASTING_PERIOD_MS / 2 ∧
    (queue_node_status workingEnv sampleNode ⟨some 0, 0, 0⟩ 300).calls = [] := by
  refine ⟨by decide, by decide, by decide⟩

/-- C3, amended: `queue_camera_gimbal_status` calls `push_message` exactly when
`timestamp_msec - T > MAX_BROADCASTING_PERIOD_MS / 4` (subtraction modulo `2 ^ 64`); when
the condition is false it returns 0, calls nothing and leaves `T` as it was.  The quarter
period threshold is never above the half period one, so every tick that would fire
`queue_node_status` at the same `T` fires this task too. -/
theorem queue_camera_gimbal_status_fires_iff (env : Env) (g : GimbalStatics) (now : Nat) :
    ((queue_camera_gimbal_status env g now).calls ≠ [] ↔
        sub_u64 now (lastFired g.msec now) > env.MAX_BROADCASTING_PERIOD_MS / 4) ∧
    (¬ sub_u64 now (lastFired g.msec now) > env.MAX_BROADCASTING_PERIOD_MS / 4 →
        (queue_camera_gimbal_status env g now).ret = 0 ∧
        (queue_camera_gimbal_status env g now).calls = [] ∧
        (queue_camera_gimbal_status env g now).state.msec = some (lastFired g.msec now)) ∧
    (sub_u64 now (lastFired g.msec now) > env.MAX_BROADCASTING_PERIOD_MS / 2 →
        (queue_camera_gimbal_status env g now).calls ≠ []) := by
  have key : (queue_camera_gimbal_status env g now).calls ≠ [] ↔
      sub_u64 now (lastFired g.msec now) > env.MAX_BROADCASTING_PERIOD_MS / 4 := by
    unfold queue_camera_gimbal_status lastFired
    by_cases h : sub_u64 now (g.msec.getD now) > env.MAX_BROADCASTING_PERIOD_MS / 4
    · simp [h]
    · simp [h]
  refine ⟨key, ?_, ?_⟩
  · intro h
    unfold lastFired at h
    unfold queue_camera_gimbal_status lastFired
    simp [h]
  · intro h
    apply key.mpr
    omega

/-- Instance of the amended C3: stored time 0 and period 1000; the tick at 250 does not
fire, the tick at 251 does. -/
theorem queue_camera_gimbal_status_fires_iff_witness :
    (queue_camera_gimbal_status workingEnv ⟨some 0, 0, 0, 8⟩ 250).calls = [] ∧
    (queue_camera_gimbal_status workingEnv ⟨some 0, 0, 0, 8⟩ 251).calls ≠ [] :=
  ⟨((queue_camera_gimbal_status_fires_iff workingEnv ⟨some 0, 0, 0, 8⟩ 250).2.1
      (by decide)).2.1,
   (queue_camera_gimbal_status_fires_iff workingEnv ⟨some 0, 0, 0, 8⟩ 251).1.mpr
      (by decide)⟩

/-! ## The acceptance callback -/

/-- C4: `shouldAcceptTransfer` returns true exactly when the transfer is a request,
`ACCEPTING_REQUESTS` is defined, and the data type id is that of Node Info with
`ACCEPT_REQUEST_NODE_INFO` defined or that of Data Type Info with
`ACCEPT_REQUEST_DATA_TYPE_INFO` defined; in every other case it returns false. -/
theorem shouldAcceptTransfer_true_iff (cfg : AcceptConfig) (ins : CanardInstance)
    (before : AcceptCells) (data_type_id : Nat) (transfer_type : CanardTransferType)
    (source_node_id : Nat) :
    ((shouldAcceptTransfer cfg ins before data_type_id transfer_type source_node_id).1 = true ↔
      transfer_type = CanardTransferType.CanardTransferTypeRequest ∧
      cfg.ACCEPTING_REQUESTS = true ∧
      ((data_type_id = cfg.NODE_INFO_DATA_TYPE_ID ∧ cfg.ACCEPT_REQUEST_NODE_INFO = true) ∨
       (data_type_id = cfg.DATA_TYPE_INFO_DATA_TYPE_ID ∧
          cfg.ACCEPT_REQUEST_DATA_TYPE_INFO = true))) ∧
    ((shouldAcceptTransfer cfg ins before data_type_id transfer_type source_node_id).1 = false ↔
      ¬ (transfer_type = CanardTransferType.CanardTransferTypeRequest ∧
      cfg.ACCEPTING_REQUESTS = true ∧
      ((data_type_id = cfg.NODE_INFO_DATA_TYPE_ID ∧ cfg.ACCEPT_REQUEST_NODE_INFO = true) ∨
       (data_type_id = cfg.DATA_TYPE_INFO_DATA_TYPE_ID ∧
          cfg.ACCEPT_REQUEST_DATA_TYPE_INFO = true)))) := by
  have key : (shouldAcceptTransfer cfg ins before data_type_id transfer_type
        source_node_id).1 = true ↔
      transfer_type = CanardTransferType.CanardTransferTypeRequest ∧
      cfg.ACCEPTING_REQUESTS = true ∧
      ((data_type_id = cfg.NODE_INFO_DATA_TYPE_ID ∧ cfg.ACCEPT_REQUEST_NODE_INFO = true) ∨
       (data_type_id = cfg.DATA_TYPE_INFO_DATA_TYPE_ID ∧
          cfg.ACCEPT_REQUEST_DATA_TYPE_INFO = true)) := by
    cases transfer_type
    · simp [shouldAcceptTransfer]
    · simp only [shouldAcceptTransfer]
      split_ifs <;> simp_all
    · simp [shouldAcceptTransfer]
  refine ⟨key, ?_⟩
  rw [← key]
  cases (shouldAcceptTransfer cfg ins before data_type_id transfer_type source_node_id).1 <;>
    simp

/-- C5: under a configuration that accepts broadcasts only (`ACCEPTING_BROADCASTS`
defined, `ACCEPTING_REQUESTS` and `ACCEPTING_RESPONSES` not defined),
`shouldAcceptTransfer` returns false for every request, whatever its data type id (the
Node Status id included) and whatever the source node. -/
theorem broadcast_only_rejects_requests (cfg : AcceptConfig)
    (_hB : cfg.ACCEPTING_BROADCASTS = true) (hR : cfg.ACCEPTING_REQUESTS = false)
    (_hP : cfg.ACCEPTING_RESPONSES = false) (ins : CanardInstance) (before : AcceptCells)
    (data_type_id : Nat) (source_node_id : Nat) :
    (shouldAcceptTransfer cfg ins before data_type_id
      CanardTransferType.CanardTransferTypeRequest source_node_id).1 = false := by
  simp [shouldAcceptTransfer, hR]

/-- Instance of C5: the broadcast-only configuration turns down a request that carries
the Node Status data type id (341) from node 42. -/
theorem broadcast_only_rejects_requests_witness :
    broadcastOnlyConfig.ACCEPTING_BROADCASTS = true ∧
    broadcastOnlyConfig.ACCEPTING_REQUESTS = false ∧
    broadcastOnlyConfig.ACCEPTING_RESPONSES = false ∧
    (shouldAcceptTransfer broadcastOnlyConfig ⟨10⟩ ⟨0, true⟩ 341
      CanardTransferType.CanardTransferTypeRequest 42).1 = false :=
  ⟨by decide, by decide, by decide,
   broadcast_only_rejects_requests broadcastOnlyConfig (by decide) (by decide) (by decide)
     ⟨10⟩ ⟨0, true⟩ 341 42⟩

/-- C6, refuted as stated: when the Data Type Info rule carries the same id as the
Node Info rule, a Node Info request is accepted but the signature left in
`*out_data_type_signature` is the later rule's, not `NODE_INFO_DATA_TYPE_SIGNATURE`. -/
theorem later_rule_overwrites_signature :
    sharedIdConfig.ACCEPTING_REQUESTS = true ∧
    sharedIdConfig.ACCEPT_REQUEST_NODE_INFO = true ∧
    sharedIdConfig.ACCEPT_REQUEST_DATA_TYPE_INFO = true ∧
    (shouldAcceptTransfer sharedIdConfig ⟨10⟩ ⟨0, false⟩ sharedIdConfig.NODE_INFO_DATA_TYPE_ID
      CanardTransferType.CanardTransferTypeRequest 42).1 = true ∧
    (shouldAcceptTransfer sharedIdConfig ⟨10⟩ ⟨0, false⟩ sharedIdConfig.NODE_INFO_DATA_TYPE_ID
      CanardTransferType.CanardTransferTypeRequest 42).2.out_data_type_signature =
        sharedIdConfig.DATA_TYPE_INFO_DATA_TYPE_SIGNATURE ∧
    (shouldAcceptTransfer sharedIdConfig ⟨10⟩ ⟨0, false⟩ sharedIdConfig.NODE_INFO_DATA_TYPE_ID
      CanardTransferType.CanardTransferTypeRequest 42).2.out_data_type_signature ≠
        sharedIdConfig.NODE_INFO_DATA_TYPE_SIGNATURE := by
  refine ⟨by decide, by decide, by decide, by decide, by decide, by decide⟩

/-- C6, amended: for every request whose data type id is `NODE_INFO_DATA_TYPE_ID`, with
both request rules enabled, `shouldAcceptTransfer` returns true, and the signature it
leaves in `*out_data_type_signature` is `NODE_INFO_DATA_TYPE_SIGNATURE` exactly when the
Data Type Info rule has a different id or the same signature.  Both rules are tested in
turn, so a later rule with the same id writes last. -/
theorem node_info_request_signature (cfg : AcceptConfig) (ins : CanardInstance)
    (before : AcceptCells) (data_type_id : Nat) (source_node_id : Nat)
    (hR : cfg.ACCEPTING_REQUESTS = true) (hN : cfg.ACCEPT_REQUEST_NODE_INFO = true)
    (hD : cfg.ACCEPT_REQUEST_DATA_TYPE_INFO = true)
    (hid : data_type_id = cfg.NODE_INFO_DATA_TYPE_ID) :
    (shouldAcceptTransfer cfg ins before data_type_id
      CanardTransferType.CanardTransferTypeRequest source_node_id).1 = true ∧
    ((shouldAcceptTransfer cfg ins before data_type_id
      CanardTransferType.CanardTransferTypeRequest source_node_id).2.out_data_type_signature =
        cfg.NODE_INFO_DATA_TYPE_SIGNATURE ↔
      (cfg.DATA_TYPE_INFO_DATA_TYPE_ID ≠ cfg.NODE_INFO_DATA_TYPE_ID ∨
       cfg.DATA_TYPE_INFO_DATA_TYPE_SIGNATURE = cfg.NODE_INFO_DATA_TYPE_SIGNATURE)) := by
  subst hid
  unfold shouldAcceptTransfer
  by_cases e : cfg.NODE_INFO_DATA_TYPE_ID = cfg.DATA_TYPE_INFO_DATA_TYPE_ID
  · simp [hR, hN, hD, e]
  · have e2 : ¬ cfg.DATA_TYPE_INFO_DATA_TYPE_ID = cfg.NODE_INFO_DATA_TYPE_ID :=
      fun h => e h.symm
    simp [hR, hN, hD, e, e2]

/-- Instance of the amended C6 under the protocol's own numbering (Node Info 1, Data
Type Info 2): the Node Info signature is the one written. -/
theorem node_info_request_signature_witness :
    (shouldAcceptTransfer standardConfig ⟨10⟩ ⟨0, false⟩ 1
      CanardTransferType.CanardTransferTypeRequest 42).1 = true ∧
    (shouldAcceptTransfer standardConfig ⟨10⟩ ⟨0, false⟩ 1
      CanardTransferType.CanardTransferTypeRequest 42).2.out_data_type_signature =
        standardConfig.NODE_INFO_DATA_TYPE_SIGNATURE :=
  ⟨(node_info_request_signature standardConfig ⟨10⟩ ⟨0, false⟩ 1 42
      (by decide) (by decide) (by decide) (by decide)).1,
   (node_info_request_signature standardConfig ⟨10⟩ ⟨0, false⟩ 1 42
      (by decide) (by decide) (by decide) (by decide)).2.mpr (Or.inl (by decide))⟩

/-- C7: under a fixed configuration the boolean returned by `shouldAcceptTransfer`
depends on `data_type_id` and `transfer_type` only: two calls that agree on these return
the same boolean whatever the instance, the source node, the previous content of
`*out_data_type_signature` and the value an earlier call left in the static
`accept_transfer` (second part: the call is made on the cells an earlier call with
other arguments left behind); the static ends up holding the value returned. -/
theorem shouldAcceptTransfer_pure (cfg : AcceptConfig) (ins ins2 ins0 : CanardInstance)
    (before before2 before0 : AcceptCells) (data_type_id data_type_id0 : Nat)
    (transfer_type transfer_type0 : CanardTransferType)
    (source_node_id source_node_id2 source_node_id0 : Nat) :
    (shouldAcceptTransfer cfg ins before data_type_id transfer_type source_node_id).1 =
      (shouldAcceptTransfer cfg ins2 before2 data_type_id transfer_type source_node_id2).1 ∧
    (shouldAcceptTransfer cfg ins2
        (shouldAcceptTransfer cfg ins0 before0 data_type_id0 transfer_type0 source_node_id0).2
        data_type_id transfer_type source_node_id2).1 =
      (shouldAcceptTransfer cfg ins before data_type_id transfer_type source_node_id).1 ∧
    (shouldAcceptTransfer cfg ins before data_type_id transfer_type
        source_node_id).2.accept_transfer =
      (shouldAcceptTransfer cfg ins before data_type_id transfer_type source_node_id).1 := by
  have indep : ∀ (i j : CanardInstance) (b c : AcceptCells) (m n : Nat),
      (shouldAcceptTransfer cfg i b data_type_id transfer_type m).1 =
        (shouldAcceptTransfer cfg j c data_type_id transfer_type n).1 := by
    intro i j b c m n
    cases transfer_type
    · simp [shouldAcceptTransfer]
    · simp only [shouldAcceptTransfer]
      split_ifs <;> rfl
    · simp [shouldAcceptTransfer]
  exact ⟨indep _ _ _ _ _ _, indep _ _ _ _ _ _, rfl⟩

/-! ## Housekeeping and start-up -/

/-- C8: `cleanup_uavcan` calls `canardCleanupStaleTransfers` exactly when
`timestamp_usec - C > 1000000` (subtraction modulo `2 ^ 64`), where `C` is the stored
last-cleanup time; then `C` becomes `timestamp_usec`, and otherwise `C` stays as it
was; the function returns true in every case; `C` is 0 before the first call. -/
theorem cleanup_uavcan_cadence (C timestamp_usec : Nat) :
    ((cleanup_uavcan C timestamp_usec).2.2 ≠ [] ↔ sub_u64 timestamp_usec C > 1000000) ∧
    (sub_u64 timestamp_usec C > 1000000 →
        (cleanup_uavcan C timestamp_usec).2.2 =
          [LibCall.canardCleanupStaleTransfers timestamp_usec] ∧
        (cleanup_uavcan C timestamp_usec).2.1 = timestamp_usec) ∧
    (¬ sub_u64 timestamp_usec C > 1000000 →
        (cleanup_uavcan C timestamp_usec).2.2 = [] ∧
        (cleanup_uavcan C timestamp_usec).2.1 = C) ∧
    (cleanup_uavcan C timestamp_usec).1 = true ∧
    cleanup_usec_init = 0 := by
  unfold cleanup_uavcan
  by_cases h : sub_u64 timestamp_usec C > 1000000
  · simp [h, cleanup_usec_init]
  · simp [h, cleanup_usec_init]

/-- Instance of C8 from the start value 0: the call at exactly one second does not
sweep, the call one microsecond later does and stores its timestamp. -/
theorem cleanup_uavcan_cadence_witness :
    (cleanup_uavcan cleanup_usec_init 1000000).2.2 = [] ∧
    (cleanup_uavcan cleanup_usec_init 1000000).2.1 = 0 ∧
    (cleanup_uavcan cleanup_usec_init 1000001).2.2 =
      [LibCall.canardCleanupStaleTransfers 1000001] ∧
    (cleanup_uavcan cleanup_usec_init 1000001).2.1 = 1000001 :=
  ⟨((cleanup_uavcan_cadence cleanup_usec_init 1000000).2.2.1 (by decide)).1,
   ((cleanup_uavcan_cadence cleanup_usec_init 1000000).2.2.1 (by decide)).2,
   ((cleanup_uavcan_cadence cleanup_usec_init 1000001).2.1 (by decide)).1,
   ((cleanup_uavcan_cadence cleanup_usec_init 1000001).2.1 (by decide)).2⟩

/-- C9: `init_uavcan` returns true exactly when `canardAVRInit` returns 0 and the
acceptance filter configuration returns 1; when `canardAVRInit` does not return 0 the
function returns false and neither `canardSetLocalNodeID` nor the filter configuration
has been called. -/
theorem init_uavcan_true_iff (drv : Driver) (local_id : Nat) :
    ((init_uavcan drv local_id).1 = true ↔
        drv.canardAVRInit drv.CAN_BITRATE = 0 ∧
        drv.canardAVRConfgifureAcceptanceFilters local_id = 1) ∧
    (drv.canardAVRInit drv.CAN_BITRATE ≠ 0 →
        (init_uavcan drv local_id).1 = false ∧
        ∀ n, LibCall.canardSetLocalNodeID n ∉ (init_uavcan drv local_id).2 ∧
             LibCall.canardAVRConfgifureAcceptanceFilters n ∉ (init_uavcan drv local_id).2) ∧
    (drv.canardAVRInit drv.CAN_BITRATE = 0 →
        (init_uavcan drv local_id).2 =
          [LibCall.canardInit, LibCall.canardAVRInit drv.CAN_BITRATE,
           LibCall.canardSetLocalNodeID local_id,
           LibCall.canardAVRConfgifureAcceptanceFilters local_id]) := by
  unfold init_uavcan
  by_cases h0 : drv.canardAVRInit drv.CAN_BITRATE = 0
  · by_cases h1 : drv.canardAVRConfgifureAcceptanceFilters local_id = 1
    · simp [h0, h1]
    · simp [h0, h1]
  · simp [h0]

/-- Instance of C9: with a driver whose initialisation returns `-1`, `init_uavcan`
returns false after `canardInit` and `canardAVRInit` only. -/
theorem init_uavcan_true_iff_witness :
    (init_uavcan deadDriver 10).1 = false ∧
    LibCall.canardSetLocalNodeID 10 ∉ (init_uavcan deadDriver 10).2 ∧
    LibCall.canardAVRConfgifureAcceptanceFilters 10 ∉ (init_uavcan deadDriver 10).2 :=
  ⟨((init_uavcan_true_iff deadDriver 10).2.1 (by decide)).1,
   (((init_uavcan_true_iff deadDriver 10).2.1 (by decide)).2 10).1,
   (((init_uavcan_true_iff deadDriver 10).2.1 (by decide)).2 10).2⟩

/-! ## Pool statistics -/

/-- Where the product does not wrap, the code does compute the percentage: for
`capacity_blocks > 0` and `peak_usage_blocks ≤ capacity_blocks` with
`100 * peak_usage_blocks < 2 ^ 16` (peaks up to 655 blocks), `uavcan_stats` on the AVR
target returns `floor(100 * peak_usage_blocks / capacity_blocks)`, a value in 0..100. -/
theorem uavcan_stats_exact_without_wrap (stats : CanardPoolAllocatorStatistics)
    (hcap : 0 < stats.capacity_blocks)
    (hpeak : stats.peak_usage_blocks ≤ stats.capacity_blocks)
    (hfit : 100 * stats.peak_usage_blocks < 2 ^ 16) :
    uavcan_stats AVR_UINT_BITS stats =
      some (100 * stats.peak_usage_blocks / stats.capacity_blocks) ∧
    100 * stats.peak_usage_blocks / stats.capacity_blocks ≤ 100 := by
  have hne : stats.capacity_blocks ≠ 0 := by omega
  have hdiv : 100 * stats.peak_usage_blocks / stats.capacity_blocks ≤ 100 :=
    Nat.div_le_of_le_mul (by omega)
  refine ⟨?_, hdiv⟩
  unfold uavcan_stats AVR_UINT_BITS U16
  simp only [hne, if_false]
  rw [Nat.mod_eq_of_lt hfit]
  congr 1
  apply Nat.mod_eq_of_lt
  omega

/-- The pool the application is built with has 32 blocks (1024 bytes in blocks of 32);
with a peak of 23 blocks the code returns 71. -/
theorem uavcan_stats_configured_pool :
    uavcan_stats AVR_UINT_BITS ⟨32, 23, 23⟩ = some 71 :=
  (uavcan_stats_exact_without_wrap ⟨32, 23, 23⟩ (by decide) (by decide) (by decide)).1

end WingSegment
